import Mathlib

/-!
Verification of the A/B-testing decision engine in `src/app.py` against its
specification.  The Python pipeline is shallowly embedded: a tabular dataset
becomes a list of records, pandas column operations become list operations over
`Rat`, and fatal conditions (`st.error` + `st.stop`, pandas `KeyError`, scipy
`ValueError`) become `Except`/`Option` results.  The ambient randomness consumed
by `df.sample(frac=1, replace=True)` is made explicit as a list of index draws,
one list of indices per bootstrap iteration.
-/

namespace ABTest

/-- One row of the uploaded table: a group label (the group column), the
primary/retention metric value and the continuous metric value.  Embeds the
columns selected at `app.py` lines 104-114. -/
structure Record where
  group : String
  metric : Rat
  cont : Rat
deriving DecidableEq, Repr

/-- The values of column `col` restricted to rows whose group label is `g`:
embeds `df[df[group_col] == g][col]`. -/
def groupVals (df : List Record) (g : String) (col : Record → Rat) : List Rat :=
  (df.filter (fun r => r.group = g)).map col

/-- `df.groupby(group_col)[col].mean()[g]`: the mean of `col` over the rows in
group `g`.  Pandas raises `KeyError` when `g` is absent from `df`, embedded as
`none`. -/
def groupMean (df : List Record) (col : Record → Rat) (g : String) : Option Rat :=
  if (groupVals df g col).length = 0 then none
  else some ((groupVals df g col).sum / ((groupVals df g col).length : Rat))

/-- One draw of `df.sample(frac=1, replace=True)`: the resample determined by a
list of row indices (sampling with replacement draws `df.length` independent
indices; the index list is the explicit record of those draws). -/
def resample (df : List Record) (idxs : List Nat) : List Record :=
  idxs.filterMap (fun i => df[i]?)

/-- `run_bootstrapping` (`app.py` lines 47-63) with the ambient randomness made
explicit: `draws` holds, for each of the `iterations` loop rounds, the row
indices drawn by `df.sample(frac=1, replace=True)`.  Each round computes the
per-group means of `metric_col` on the resample and appends
`boot_means[group_a] - boot_means[group_b]`; if the resample omits either
group, the pandas series lookup raises `KeyError` and the whole call fails. -/
def run_bootstrapping (df : List Record) (col : Record → Rat) (ga gb : String) :
    List (List Nat) → Except String (List Rat)
  | [] => .ok []
  | idxs :: rest =>
    match groupMean (resample df idxs) col ga, groupMean (resample df idxs) col gb with
    | some ma, some mb =>
      match run_bootstrapping df col ga gb rest with
      | .ok ds => .ok ((ma - mb) :: ds)
      | .error e => .error e
    | _, _ => .error "KeyError"

/-- `prob_a_better = (boot_df['difference'] > 0).mean()` (`app.py` line 176):
the fraction of bootstrap differences that are strictly positive. -/
def prob_a_better (diffs : List Rat) : Rat :=
  ((diffs.filter (fun d => 0 < d)).length : Rat) / (diffs.length : Rat)

/-- `raw_diff = rates[group_a] - rates[group_b]` where
`rates = df_clean.groupby(group_col)[metric_col].mean()` (`app.py` lines
153-154); `none` embeds the `KeyError` raised when a group is absent. -/
def raw_diff (df : List Record) (col : Record → Rat) (ga gb : String) : Option Rat :=
  match groupMean df col ga, groupMean df col gb with
  | some ra, some rb => some (ra - rb)
  | _, _ => none

/-- The three retention recommendations printed at `app.py` lines 179-184. -/
inductive Verdict where
  | A_WINS
  | B_WINS
  | INCONCLUSIVE
deriving DecidableEq, Repr

/-- The conclusion logic at `app.py` lines 179-184:
`if prob_a_better > 0.95: ... elif prob_a_better < 0.05: ... else: ...`. -/
def verdict_of (p : Rat) : Verdict :=
  if p > 95/100 then .A_WINS
  else if p < 5/100 then .B_WINS
  else .INCONCLUSIVE

/-- The engagement conclusion at `app.py` lines 198-201: `u_pval < 0.05`. -/
def engagement_significant (pval : Rat) : Bool :=
  pval < 5/100

/-- `df_clean = df_raw[df_raw[continuous_col] < threshold]` (`app.py` line
137): keep exactly the rows whose continuous value is strictly below the
threshold. -/
def df_clean (df : List Record) (threshold : Rat) : List Record :=
  df.filter (fun r => r.cont < threshold)

/-- `removed_count = df_raw.shape[0] - df_clean.shape[0]` (`app.py` line
138). -/
def removed_count (df : List Record) (threshold : Rat) : Nat :=
  df.length - (df_clean df threshold).length

/-- Recursion scheme for `uniqueList`: the fuel bounds the recursion depth and
never runs out when it starts at the length of the list. -/
def uniqueGo : Nat → List String → List String
  | _, [] => []
  | 0, _ :: _ => []
  | fuel + 1, x :: xs => x :: uniqueGo fuel (xs.filter (fun y => y ≠ x))

/-- pandas `Series.unique()` as called at `app.py` line 117: the distinct
values of the column in order of first appearance. -/
def uniqueList (l : List String) : List String :=
  uniqueGo l.length l

/-- `unique_groups = df_raw[group_col].unique()` followed by the cardinality
check at `app.py` lines 117-123: when there are not exactly two distinct
labels the app shows an error and stops (`st.error` + `st.stop`), which the
spec surfaces as the fatal `ValidationError("group cardinality")`; otherwise
`group_a = unique_groups[0]` and `group_b = unique_groups[1]`. -/
def validate_groups (df : List Record) : Except String (String × String) :=
  if (uniqueList (df.map (·.group))).length = 2 then
    .ok ((uniqueList (df.map (·.group))).getD 0 "",
         (uniqueList (df.map (·.group))).getD 1 "")
  else
    .error "group cardinality"

/-- The values the main flow at `app.py` lines 117-138 hands to the two
estimators: the two group labels, the cleaned dataset and the removed-row
count. -/
structure PipelineOut where
  groupA : String
  groupB : String
  cleaned : List Record
  removed : Nat
deriving DecidableEq, Repr

/-- The main flow at `app.py` lines 117-138 in source order: the group
cardinality check and the assignment of `group_a`/`group_b` happen on
`df_raw` (lines 117-123) and only afterwards is the outlier filter applied
(lines 137-138). -/
def pipeline (dfRaw : List Record) (threshold : Rat) : Except String PipelineOut :=
  match validate_groups dfRaw with
  | .error e => .error e
  | .ok (ga, gb) => .ok ⟨ga, gb, df_clean dfRaw threshold, removed_count dfRaw threshold⟩

/-- Insertion of a value into an ascending sorted list. -/
def insertSorted (x : Rat) : List Rat → List Rat
  | [] => [x]
  | y :: ys => if x ≤ y then x :: y :: ys else y :: insertSorted x ys

/-- The column values in ascending order. -/
def sortAsc (xs : List Rat) : List Rat :=
  xs.foldr insertSorted []

/-- The interpolation position `(n - 1) * q` used by pandas `Series.quantile`
on a column of `n` values. -/
def qPos (n : Nat) (q : Rat) : Rat :=
  ((n : Rat) - 1) * q

/-- pandas `Series.quantile(q)` with its default linear interpolation, as
called at `app.py` line 129: with the values sorted ascending, the quantile
sits at position `h = (n - 1) * q`; the result interpolates linearly between
the values at positions `floor h` and `floor h + 1`. -/
def quantile (xs : List Rat) (q : Rat) : Rat :=
  if sortAsc xs = [] then 0
  else
    (sortAsc xs).getD (⌊qPos (sortAsc xs).length q⌋.toNat) 0 +
      (qPos (sortAsc xs).length q - ((⌊qPos (sortAsc xs).length q⌋.toNat : Nat) : Rat)) *
        ((sortAsc xs).getD (⌊qPos (sortAsc xs).length q⌋.toNat + 1)
            ((sortAsc xs).getD (⌊qPos (sortAsc xs).length q⌋.toNat) 0) -
          (sortAsc xs).getD (⌊qPos (sortAsc xs).length q⌋.toNat) 0)

/-- pandas `Series.max()` over the continuous column (`app.py` line 134). -/
def colMax : List Rat → Rat
  | [] => 0
  | x :: xs => xs.foldl max x

/-- Python `int(...)` applied to a numeric value: truncation toward zero. -/
def pyInt (q : Rat) : Int :=
  if 0 ≤ q then ⌊q⌋ else ⌈q⌉

/-- The slider default at `app.py` lines 129-135: the threshold applied when
the caller does not move the slider is
`3000 if 3000 < df_raw[continuous_col].max() else int(q99)` with
`q99 = df_raw[continuous_col].quantile(0.99)`. -/
def default_threshold (xs : List Rat) : Int :=
  if 3000 < colMax xs then 3000 else pyInt (quantile xs (99/100))

/-- The mid-rank of value `v` in the pooled sample `all` (ties receive the
average of the tied positions): `#{w | w < v} + (#{w | w = v} + 1) / 2`. -/
def midRank (all : List Rat) (v : Rat) : Rat :=
  ((all.filter (fun w => w < v)).length : Rat) +
    (((all.filter (fun w => w = v)).length : Rat) + 1) / 2

/-- The Mann-Whitney U statistic of `xs` against `ys` via rank sums:
`U1 = R1 - n1 * (n1 + 1) / 2` with `R1` the sum of the mid-ranks of `xs` in
the pooled sample. -/
def uStat (xs ys : List Rat) : Rat :=
  (xs.map (midRank (xs ++ ys))).sum - (xs.length : Rat) * ((xs.length : Rat) + 1) / 2

/-- `scipy.stats.mannwhitneyu(xs, ys)` as called at `app.py` lines 191-194,
up to its U statistic: scipy's input validation raises `ValueError` when
either sample has zero size (the spec's `ValidationError("empty group")`).
The two-sided p-value, derived from the normal approximation to the null
distribution of U, is consumed abstractly by `engagement_significant` and is
not needed by any claim. -/
def mannwhitneyu (xs ys : List Rat) : Except String Rat :=
  if xs.length = 0 ∨ ys.length = 0 then .error "empty group"
  else .ok (uStat xs ys)

/-- The RankTestEstimator call at `app.py` lines 191-194: the Mann-Whitney
test on the continuous metric of group A against group B of the cleaned
dataset. -/
def rank_test (df : List Record) (ga gb : String) : Except String Rat :=
  mannwhitneyu (groupVals df ga (·.cont)) (groupVals df gb (·.cont))

end ABTest

namespace ABTest

theorem uniqueGo_eq_uniqueList :
    ∀ (fuel : Nat) (l : List String), l.length ≤ fuel → uniqueGo fuel l = uniqueList l := by
  intro fuel
  induction fuel using Nat.strong_induction_on with
  | _ fuel ih =>
    intro l hl
    cases l with
    | nil => cases fuel <;> rfl
    | cons x xs =>
      cases fuel with
      | zero => simp at hl
      | succ n =>
        have hfl : (xs.filter (fun y => y ≠ x)).length ≤ xs.length :=
          List.length_filter_le _ _
        have h1 : uniqueGo n (xs.filter (fun y => y ≠ x)) =
            uniqueList (xs.filter (fun y => y ≠ x)) :=
          ih n (Nat.lt_succ_self n)
            _ (le_trans hfl (Nat.le_of_succ_le_succ hl))
        have h2 : uniqueGo xs.length (xs.filter (fun y => y ≠ x)) =
            uniqueList (xs.filter (fun y => y ≠ x)) :=
          ih xs.length (Nat.lt_succ_of_le (Nat.le_of_succ_le_succ hl)) _ hfl
        show x :: uniqueGo n (xs.filter (fun y => y ≠ x)) = uniqueList (x :: xs)

        rw [h1]
        show _ = x :: uniqueGo xs.length (xs.filter (fun y => y ≠ x))
        rw [h2]

theorem uniqueList_nil : uniqueList [] = [] := rfl

theorem uniqueList_cons (x : String) (xs : List String) :
    uniqueList (x :: xs) = x :: uniqueList (xs.filter (fun y => y ≠ x)) := by
  show x :: uniqueGo xs.length (xs.filter (fun y => y ≠ x)) = _
  rw [uniqueGo_eq_uniqueList xs.length _ (List.length_filter_le _ _)]

theorem mem_uniqueList (a : String) : ∀ l : List String, a ∈ uniqueList l ↔ a ∈ l := by
  have H : ∀ (n : Nat) (l : List String), l.length ≤ n → (a ∈ uniqueList l ↔ a ∈ l) := by
    intro n
    induction n with
    | zero =>
      intro l hl
      rw [List.length_eq_zero.mp (Nat.le_zero.mp hl), uniqueList_nil]
    | succ n ihn =>
      intro l hl
      cases l with
      | nil => rw [uniqueList_nil]
      | cons x xs =>
        rw [uniqueList_cons]
        have hfl : (xs.filter (fun y => y ≠ x)).length ≤ n :=
          le_trans (List.length_filter_le _ _) (Nat.le_of_succ_le_succ hl)
        simp only [List.mem_cons, ihn _ hfl, List.mem_filter, decide_eq_true_eq]
        constructor
        · rintro (rfl | ⟨h, _⟩)
          · exact .inl rfl
          · exact .inr h
        · rintro (rfl | h)
          · exact .inl rfl
          · by_cases hx : a = x
            · exact .inl hx
            · exact .inr ⟨h, hx⟩
  intro l
  exact H l.length l le_rfl

theorem nodup_uniqueList : ∀ l : List String, (uniqueList l).Nodup := by
  have H : ∀ (n : Nat) (l : List String), l.length ≤ n → (uniqueList l).Nodup := by
    intro n
    induction n with
    | zero =>
      intro l hl
      rw [List.length_eq_zero.mp (Nat.le_zero.mp hl), uniqueList_nil]
      exact List.nodup_nil
    | succ n ihn =>
      intro l hl
      cases l with
      | nil => rw [uniqueList_nil]; exact List.nodup_nil
      | cons x xs =>
        rw [uniqueList_cons]
        have hfl : (xs.filter (fun y => y ≠ x)).length ≤ n :=
          le_trans (List.length_filter_le _ _) (Nat.le_of_succ_le_succ hl)
        refine List.nodup_cons.mpr ⟨?_, ihn _ hfl⟩
        intro hmem
        rw [mem_uniqueList] at hmem
        have hx := (List.mem_filter.mp hmem).2
        simp at hx
  intro l
  exact H l.length l le_rfl

theorem uniqueList_toFinset (l : List String) : (uniqueList l).toFinset = l.toFinset := by
  ext a
  simp [List.mem_toFinset, mem_uniqueList]

theorem uniqueList_length (l : List String) : (uniqueList l).length = l.toFinset.card := by
  rw [← uniqueList_toFinset l, List.toFinset_card_of_nodup (nodup_uniqueList l)]

theorem uniqueList_headD (l : List String) (d : String) :
    (uniqueList l).headD d = l.headD d := by
  cases l with
  | nil => rw [uniqueList_nil]
  | cons x xs => rw [uniqueList_cons]; rfl

theorem validate_groups_ok (df : List Record) (p : String × String)
    (h : validate_groups df = .ok p) :
    uniqueList (df.map (·.group)) = [p.1, p.2] := by
  unfold validate_groups at h
  split at h
  · rename_i h2
    obtain ⟨a, b, hab⟩ := List.length_eq_two.mp h2
    rw [hab] at h ⊢
    cases h
    rfl
  · cases h

/-- C3: For every probability_a_better value and rank-test p-value, the
DecisionEngine outputs Verdict = A_WINS iff probability_a_better > 0.95,
Verdict = B_WINS iff probability_a_better < 0.05, Verdict = INCONCLUSIVE
otherwise, and independently sets engagement_significant = true iff
p_value < 0.05 (both comparisons strict). -/
theorem claim_C3_decision_thresholds (p pval : Rat) :
    (verdict_of p = .A_WINS ↔ 95/100 < p) ∧
    (verdict_of p = .B_WINS ↔ p < 5/100) ∧
    (verdict_of p = .INCONCLUSIVE ↔ (5/100 ≤ p ∧ p ≤ 95/100)) ∧
    (engagement_significant pval = true ↔ pval < 5/100) := by
  unfold verdict_of engagement_significant
  constructor
  · constructor
    · intro h
      by_contra hlt
      simp only [not_lt] at hlt
      rw [if_neg (not_lt.mpr hlt)] at h
      split at h <;> simp_all
    · intro h; rw [if_pos h]
  constructor
  · constructor
    · intro h
      by_contra hge
      simp only [not_lt] at hge
      by_cases hgt : 95/100 < p
      · rw [if_pos hgt] at h; simp_all
      · rw [if_neg hgt, if_neg (not_lt.mpr hge)] at h; simp_all
    · intro h
      have hgt : ¬ (95/100 < (p : Rat)) := by
        intro hc
        have : (5/100 : Rat) < 95/100 := by norm_num
        exact absurd (lt_trans h (lt_trans this hc)) (lt_irrefl p)
      rw [if_neg hgt, if_pos h]
  constructor
  · constructor
    · intro h
      by_cases hgt : 95/100 < p
      · rw [if_pos hgt] at h; simp_all
      · by_cases hlt : p < 5/100
        · rw [if_neg hgt, if_pos hlt] at h; simp_all
        · exact ⟨not_lt.mp hlt, not_lt.mp hgt⟩
    · intro ⟨h1, h2⟩
      rw [if_neg (not_lt.mpr h2), if_neg (not_lt.mpr h1)]
  · simp [decide_eq_true_eq]

/-- C4: For every dataset, continuous column, and threshold, the OutlierFilter
returns exactly the subsequence of records whose value on that column is
strictly less than the threshold (records equal to the threshold are removed),
together with a removed count satisfying
removed_count + |cleaned dataset| = |raw dataset|. -/
theorem claim_C4_outlier_filter (df : List Record) (t : Rat) :
    (df_clean df t).Sublist df ∧
    (∀ r : Record, (df_clean df t).count r = if r.cont < t then df.count r else 0) ∧
    (∀ r : Record, r.cont = t → r ∉ df_clean df t) ∧
    removed_count df t + (df_clean df t).length = df.length := by
  refine ⟨List.filter_sublist df, ?_, ?_, ?_⟩
  · intro r
    by_cases h : r.cont < t
    · rw [if_pos h]
      exact List.count_filter (by simp [h])
    · rw [if_neg h]
      refine List.count_eq_zero.mpr ?_
      intro hmem
      have := List.of_mem_filter hmem
      simp only [decide_eq_true_eq] at this
      exact h this
  · intro r hr hmem
    have := List.of_mem_filter hmem
    simp only [decide_eq_true_eq] at this
    exact absurd this (by rw [hr]; exact lt_irrefl t)
  · exact Nat.sub_add_cancel (List.length_filter_le _ _)

/-- Witness for C4 at a concrete input: filtering [(a, cont 1), (a, cont 5)]
at threshold 5 keeps only the first row, excludes the row whose value equals
the threshold, and the removed count balances the lengths. -/
theorem claim_C4_witness :
    df_clean [⟨"a", 0, 1⟩, ⟨"a", 0, 5⟩] 5 = [⟨"a", 0, 1⟩] ∧
    (⟨"a", 0, 5⟩ : Record) ∉ df_clean [⟨"a", 0, 1⟩, ⟨"a", 0, 5⟩] 5 ∧
    removed_count [⟨"a", 0, 1⟩, ⟨"a", 0, 5⟩] 5 + 1 = 2 := by
  refine ⟨by decide, ?_, ?_⟩
  · exact (claim_C4_outlier_filter [⟨"a", 0, 1⟩, ⟨"a", 0, 5⟩] 5).2.2.1 ⟨"a", 0, 5⟩ rfl
  · have h := (claim_C4_outlier_filter [⟨"a", 0, 1⟩, ⟨"a", 0, 5⟩] 5).2.2.2
    have h2 : df_clean [⟨"a", 0, 1⟩, ⟨"a", 0, 5⟩] 5 = [⟨"a", 0, 1⟩] := by decide
    rw [h2] at h
    exact h

/-- C8: The OutlierFilter is idempotent: for every dataset and threshold,
filtering a dataset that has already been filtered with that same threshold
removes zero additional rows (the second removed_count is 0 and the output
equals the input). -/
theorem claim_C8_filter_idempotent (df : List Record) (t : Rat) :
    df_clean (df_clean df t) t = df_clean df t ∧
    removed_count (df_clean df t) t = 0 := by
  have h : df_clean (df_clean df t) t = df_clean df t := by
    unfold df_clean
    rw [List.filter_filter]
    apply List.filter_congr
    intro r _
    simp [Bool.and_self]
  exact ⟨h, by simp [removed_count, h]⟩

/-- C6: For every dataset and group column, the GroupValidator returns the two
distinct labels with group A fixed as the first-encountered label and group B
as the second when exactly two distinct labels exist, and fails with
ValidationError("group cardinality") — so that analysis cannot proceed —
whenever the number of distinct labels is 1 or 3 or more. -/
theorem claim_C6_group_validator (df : List Record) :
    ((df.map (·.group)).toFinset.card = 2 →
      validate_groups df =
        .ok ((df.map (·.group)).headD "",
          ((df.map (·.group)).filter
            (fun y => y ≠ (df.map (·.group)).headD "")).headD "") ∧
      (df.map (·.group)).headD "" ≠
        ((df.map (·.group)).filter
          (fun y => y ≠ (df.map (·.group)).headD "")).headD "") ∧
    ((df.map (·.group)).toFinset.card = 1 ∨ 3 ≤ (df.map (·.group)).toFinset.card →
      validate_groups df = .error "group cardinality") := by
  constructor
  · intro h2
    have hlen : (uniqueList (df.map (·.group))).length = 2 := by
      rw [uniqueList_length]; exact h2
    obtain ⟨a, b, hab⟩ := List.length_eq_two.mp hlen
    have hv : validate_groups df = .ok (a, b) := by
      unfold validate_groups
      rw [hab]
      rfl
    have hne : a ≠ b := by
      have hnd := nodup_uniqueList (df.map (·.group))
      rw [hab] at hnd
      simpa using (List.nodup_cons.mp hnd).1
    cases hlab : df.map (·.group) with
    | nil =>
      rw [hlab, uniqueList_nil] at hab
      cases hab
    | cons x rest =>
      rw [hlab, uniqueList_cons] at hab
      injection hab with hx htail
      subst hx
      have hheadA : (x :: rest).headD "" = x := rfl
      have hfil : (x :: rest).filter (fun y => y ≠ x) =
          rest.filter (fun y => y ≠ x) := by
        simp [List.filter_cons]
      have hheadB : (rest.filter (fun y => y ≠ x)).headD "" = b := by
        have h3 := uniqueList_headD (rest.filter (fun y => y ≠ x)) ""
        rw [htail] at h3
        exact h3.symm
      rw [hheadA, hfil, hheadB]
      exact ⟨hv, hne⟩
  · intro hcase
    have hne : (uniqueList (df.map (·.group))).length ≠ 2 := by
      rw [uniqueList_length]
      rcases hcase with h | h <;> omega
    unfold validate_groups
    rw [if_neg hne]

/-- Witness for C6 at concrete inputs: a dataset whose labels appear in the
order ctrl, test, ctrl yields the pair (ctrl, test); a one-label dataset is
rejected. -/
theorem claim_C6_witness :
    validate_groups [⟨"ctrl", 0, 0⟩, ⟨"test", 1, 0⟩, ⟨"ctrl", 1, 0⟩] =
      .ok ("ctrl", "test") ∧
    validate_groups [⟨"ctrl", 0, 0⟩] = .error "group cardinality" := by
  constructor
  · have h := (claim_C6_group_validator
      [⟨"ctrl", 0, 0⟩, ⟨"test", 1, 0⟩, ⟨"ctrl", 1, 0⟩]).1 (by decide)
    have h1 := h.1
    simpa using h1
  · exact (claim_C6_group_validator [⟨"ctrl", 0, 0⟩]).2 (Or.inl (by decide))

/-- Counterexample for C7: on the raw dataset [(a, cont 10), (b, cont 1)] with
threshold 5 the pipeline succeeds and returns the labels (a, b) taken from the
raw dataset, although the cleaned dataset retains only the single label b and
group validation on the cleaned dataset would reject it — so the validator
does not operate on the cleaned dataset. -/
theorem claim_C7_counterexample :
    pipeline [⟨"a", 0, 10⟩, ⟨"b", 0, 1⟩] 5 =
      .ok ⟨"a", "b", [⟨"b", 0, 1⟩], 1⟩ ∧
    validate_groups (df_clean [⟨"a", 0, 10⟩, ⟨"b", 0, 1⟩] 5) =
      .error "group cardinality" := by
  constructor
  · rfl
  · rfl

/-- C7 (amended): the pipeline validates groups on the raw dataset before
applying the OutlierFilter — whenever it succeeds, the labels it hands
downstream are the distinct labels of the raw dataset (group A being the raw
dataset's first label), and the cleaned dataset and removed count are produced
afterwards by filtering the raw dataset. -/
theorem claim_C7_validation_on_raw (dfRaw : List Record) (t : Rat) (out : PipelineOut)
    (h : pipeline dfRaw t = .ok out) :
    validate_groups dfRaw = .ok (out.groupA, out.groupB) ∧
    out.groupA = (dfRaw.map (·.group)).headD "" ∧
    out.cleaned = df_clean dfRaw t ∧
    out.removed = removed_count dfRaw t := by
  unfold pipeline at h
  cases hv : validate_groups dfRaw with
  | error e => rw [hv] at h; cases h
  | ok p =>
    rw [hv] at h
    obtain ⟨ga, gb⟩ := p
    cases h
    refine ⟨rfl, ?_, rfl, rfl⟩
    have hu := validate_groups_ok dfRaw (ga, gb) hv
    have hh := uniqueList_headD (dfRaw.map (·.group)) ""
    rw [hu] at hh
    exact hh

/-- Witness for C7: the pipeline on a two-label raw dataset returns the raw
dataset's labels together with the filtered rows. -/
theorem claim_C7_witness :
    validate_groups [⟨"a", 0, 10⟩, ⟨"b", 0, 1⟩] = .ok ("a", "b") ∧
    "a" = (([⟨"a", 0, 10⟩, ⟨"b", 0, 1⟩] : List Record).map (·.group)).headD "" := by
  have h := claim_C7_validation_on_raw [⟨"a", 0, 10⟩, ⟨"b", 0, 1⟩] 5
    ⟨"a", "b", [⟨"b", 0, 1⟩], 1⟩ (by rfl)
  exact ⟨h.1, h.2.1⟩

/-- C9: For every cleaned dataset in which at least one of the two groups has
zero observations on the continuous metric after filtering, the
RankTestEstimator fails with ValidationError("empty group") rather than
returning a result. -/
theorem claim_C9_empty_group (df : List Record) (ga gb : String)
    (h : groupVals df ga (·.cont) = [] ∨ groupVals df gb (·.cont) = []) :
    rank_test df ga gb = .error "empty group" := by
  unfold rank_test mannwhitneyu
  rcases h with h | h <;> simp [h]

/-- Witness for C9: filtering at threshold 15 removes every row of group b, and
the rank test on the cleaned dataset fails. -/
theorem claim_C9_witness :
    rank_test (df_clean [⟨"a", 0, 10⟩, ⟨"b", 0, 20⟩] 15) "a" "b" =
      .error "empty group" :=
  claim_C9_empty_group _ "a" "b" (Or.inr (by decide))

theorem sortAsc_0_5000 : sortAsc [0, 5000] = [0, 5000] := by
  norm_num [sortAsc, insertSorted]

theorem quantile99_0_5000 : quantile [0, 5000] (99/100) = 4950 := by
  have hq : qPos 2 (99/100) = 99/100 := by norm_num [qPos]
  have hf : (⌊(99/100 : Rat)⌋ : Int) = 0 := by norm_num [Int.floor_eq_iff]
  simp only [quantile, sortAsc_0_5000]
  rw [if_neg (List.cons_ne_nil _ _)]
  norm_num [hq, hf]

theorem colMax_0_5000 : (3000 : Rat) < colMax [0, 5000] := by
  norm_num [colMax, max_def]

/-- Counterexample for C5: on the column [0, 5000] the 99th percentile is 4950,
but since 3000 is below the column maximum the default threshold applied is
3000, not the 99th percentile. -/
theorem claim_C5_counterexample :
    default_threshold [0, 5000] = 3000 ∧
    quantile [0, 5000] (99/100) = 4950 ∧
    ((default_threshold [0, 5000] : Int) : Rat) ≠ quantile [0, 5000] (99/100) := by
  have hd : default_threshold [0, 5000] = 3000 := by
    unfold default_threshold
    rw [if_pos colMax_0_5000]
  refine ⟨hd, quantile99_0_5000, ?_⟩
  rw [hd, quantile99_0_5000]
  norm_num

/-- C5 (amended): when the caller does not override the outlier threshold, the
default threshold applied to the continuous column is 3000 whenever 3000 is
strictly below the column maximum, and otherwise the 99th percentile of the
column truncated to an integer. -/
theorem claim_C5_default_threshold (xs : List Rat) :
    (3000 < colMax xs → default_threshold xs = 3000) ∧
    (¬ 3000 < colMax xs → default_threshold xs = pyInt (quantile xs (99/100))) := by
  unfold default_threshold
  exact ⟨fun h => if_pos h, fun h => if_neg h⟩

/-- Witness for C5 at concrete columns: [0, 5000] has maximum above 3000 so the
default is 3000; [0, 10] has maximum below 3000 so the default is the
truncated 99th percentile, 9. -/
theorem claim_C5_witness :
    default_threshold [0, 5000] = 3000 ∧ default_threshold [0, 10] = 9 := by
  constructor
  · exact (claim_C5_default_threshold [0, 5000]).1 colMax_0_5000
  · have hm : ¬ (3000 : Rat) < colMax [0, 10] := by norm_num [colMax, max_def]
    have h := (claim_C5_default_threshold [0, 10]).2 hm
    rw [h]
    have hs : sortAsc [0, 10] = [0, 10] := by norm_num [sortAsc, insertSorted]
    have hq : qPos 2 (99/100) = 99/100 := by norm_num [qPos]
    have hf : (⌊(99/100 : Rat)⌋ : Int) = 0 := by norm_num [Int.floor_eq_iff]
    have hquant : quantile [0, 10] (99/100) = 99/10 := by
      simp only [quantile, hs]
      rw [if_neg (List.cons_ne_nil _ _)]
      norm_num [hq, hf]
    rw [hquant]
    norm_num [pyInt, Int.floor_eq_iff]

theorem run_bootstrapping_error (df : List Record) (col : Record → Rat) (ga gb : String) :
    ∀ draws : List (List Nat),
      (∃ idxs ∈ draws, groupMean (resample df idxs) col ga = none ∨
        groupMean (resample df idxs) col gb = none) →
      run_bootstrapping df col ga gb draws = .error "KeyError" := by
  intro draws
  induction draws with
  | nil =>
    rintro ⟨idxs, hmem, _⟩
    cases hmem
  | cons i rest ih =>
    rintro ⟨idxs, hmem, hbad⟩
    rcases List.mem_cons.mp hmem with rfl | hmem2
    · cases h1 : groupMean (resample df idxs) col ga with
      | none => simp [run_bootstrapping, h1]
      | some ma =>
        cases h2 : groupMean (resample df idxs) col gb with
        | none => simp [run_bootstrapping, h1, h2]
        | some mb =>
          rcases hbad with hb | hb
          · rw [h1] at hb; cases hb
          · rw [h2] at hb; cases hb
    · cases h1 : groupMean (resample df i) col ga with
      | none => simp [run_bootstrapping, h1]
      | some ma =>
        cases h2 : groupMean (resample df i) col gb with
        | none => simp [run_bootstrapping, h1, h2]
        | some mb =>
          have hrest := ih ⟨idxs, hmem2, hbad⟩
          simp [run_bootstrapping, h1, h2, hrest]

theorem run_bootstrapping_ok (df : List Record) (col : Record → Rat) (ga gb : String) :
    ∀ (draws : List (List Nat)) (ds : List Rat),
      run_bootstrapping df col ga gb draws = .ok ds →
      ds.length = draws.length ∧
      ∀ i, i < draws.length →
        raw_diff (resample df (draws.getD i [])) col ga gb = some (ds.getD i 0) := by
  intro draws
  induction draws with
  | nil =>
    intro ds h
    cases h
    exact ⟨rfl, fun i hi => absurd hi (Nat.not_lt_zero i)⟩
  | cons idxs rest ih =>
    intro ds h
    cases h1 : groupMean (resample df idxs) col ga with
    | none => simp [run_bootstrapping, h1] at h
    | some ma =>
      cases h2 : groupMean (resample df idxs) col gb with
      | none => simp [run_bootstrapping, h1, h2] at h
      | some mb =>
        cases hr : run_bootstrapping df col ga gb rest with
        | error e => simp [run_bootstrapping, h1, h2, hr] at h
        | ok ds2 =>
          have hds : ds = (ma - mb) :: ds2 := by
            have := h
            simp [run_bootstrapping, h1, h2, hr] at this
            exact this.symm
          subst hds
          obtain ⟨hlen, hall⟩ := ih ds2 hr
          refine ⟨by simp [hlen], ?_⟩
          intro i hi
          cases i with
          | zero => simp [raw_diff, h1, h2]
          | succ n =>
            have hn := hall n (Nat.lt_of_succ_lt_succ hi)
            simpa using hn

/-- Counterexample for C1: on the dataset [(a, metric 1), (b, metric 0)], a
single bootstrap iteration whose resample draws row 0 twice omits group b
entirely, and the whole run fails with a KeyError instead of skipping the
iteration and continuing. -/
theorem claim_C1_counterexample :
    run_bootstrapping [⟨"a", 1, 0⟩, ⟨"b", 0, 0⟩] (·.metric) "a" "b" [[0, 0]] =
      .error "KeyError" := rfl

/-- C1 (amended): if any resampling iteration draws a resample that omits one
group entirely, the bootstrap run fails with a KeyError — no iteration is
skipped and no skip count is recorded; in a run that returns, every iteration
contributes one difference, so probability_a_better equals the count of
positive differences divided by the total number of iterations (which is also
the number of non-skipped iterations, since none are skipped). -/
theorem claim_C1_no_skipping (df : List Record) (col : Record → Rat) (ga gb : String)
    (draws : List (List Nat)) :
    ((∃ idxs ∈ draws, groupMean (resample df idxs) col ga = none ∨
        groupMean (resample df idxs) col gb = none) →
      run_bootstrapping df col ga gb draws = .error "KeyError") ∧
    (∀ ds, run_bootstrapping df col ga gb draws = .ok ds →
      ds.length = draws.length ∧
      prob_a_better ds =
        ((ds.filter (fun d => 0 < d)).length : Rat) / (draws.length : Rat)) := by
  refine ⟨run_bootstrapping_error df col ga gb draws, ?_⟩
  intro ds h
  obtain ⟨hlen, _⟩ := run_bootstrapping_ok df col ga gb draws ds h
  refine ⟨hlen, ?_⟩
  rw [prob_a_better, hlen]

/-- Witness for C1: a resample hitting only group a makes the run fail, and a
successful one-iteration run yields one difference and
probability_a_better = 1 / 1. -/
theorem claim_C1_witness :
    run_bootstrapping [⟨"a", 1, 0⟩, ⟨"b", 0, 0⟩] (·.metric) "a" "b" [[1, 1]] =
      .error "KeyError" ∧
    prob_a_better [1] = ((([1] : List Rat).filter (fun d => 0 < d)).length : Rat) / 1 := by
  constructor
  · refine (claim_C1_no_skipping [⟨"a", 1, 0⟩, ⟨"b", 0, 0⟩] (·.metric) "a" "b" [[1, 1]]).1
      ⟨[1, 1], List.mem_singleton.mpr rfl, Or.inl ?_⟩
    have hv : groupVals (resample [⟨"a", 1, 0⟩, ⟨"b", 0, 0⟩] [1, 1]) "a" (·.metric) = [] := by
      decide
    simp [groupMean, hv]
  · have hok : run_bootstrapping [⟨"a", 1, 0⟩, ⟨"b", 0, 0⟩] (·.metric) "a" "b" [[0, 1]] =
        .ok [1] := by
      have hga : groupMean (resample [⟨"a", 1, 0⟩, ⟨"b", 0, 0⟩] [0, 1]) (·.metric) "a" =
          some 1 := by
        have hv : groupVals (resample [⟨"a", 1, 0⟩, ⟨"b", 0, 0⟩] [0, 1]) "a" (·.metric) =
            [1] := by decide
        simp [groupMean, hv]
      have hgb : groupMean (resample [⟨"a", 1, 0⟩, ⟨"b", 0, 0⟩] [0, 1]) (·.metric) "b" =
          some 0 := by
        have hv : groupVals (resample [⟨"a", 1, 0⟩, ⟨"b", 0, 0⟩] [0, 1]) "b" (·.metric) =
            [0] := by decide
        simp [groupMean, hv]
      simp only [run_bootstrapping, hga, hgb]
      norm_num
    have h := ((claim_C1_no_skipping [⟨"a", 1, 0⟩, ⟨"b", 0, 0⟩] (·.metric) "a" "b"
      [[0, 1]]).2 [1] hok).2
    simpa using h

/-- Counterexample for C2: two runs of run_bootstrapping with identical
dataset, columns, group labels and iteration count (one iteration) produce
different difference distributions when the ambient resampling draws differ —
the function takes no seed from which the output could be reproduced. -/
theorem claim_C2_counterexample :
    run_bootstrapping [⟨"a", 0, 0⟩, ⟨"a", 1, 0⟩, ⟨"b", 0, 0⟩] (·.metric) "a" "b" [[0, 2]] ≠
    run_bootstrapping [⟨"a", 0, 0⟩, ⟨"a", 1, 0⟩, ⟨"b", 0, 0⟩] (·.metric) "a" "b" [[1, 2]] := by
  have h1 : run_bootstrapping [⟨"a", 0, 0⟩, ⟨"a", 1, 0⟩, ⟨"b", 0, 0⟩] (·.metric) "a" "b"
      [[0, 2]] = .ok [0] := by
    have hga : groupMean (resample [⟨"a", 0, 0⟩, ⟨"a", 1, 0⟩, ⟨"b", 0, 0⟩] [0, 2])
        (·.metric) "a" = some 0 := by
      have hv : groupVals (resample [⟨"a", 0, 0⟩, ⟨"a", 1, 0⟩, ⟨"b", 0, 0⟩] [0, 2]) "a"
          (·.metric) = [0] := by decide
      simp [groupMean, hv]
    have hgb : groupMean (resample [⟨"a", 0, 0⟩, ⟨"a", 1, 0⟩, ⟨"b", 0, 0⟩] [0, 2])
        (·.metric) "b" = some 0 := by
      have hv : groupVals (resample [⟨"a", 0, 0⟩, ⟨"a", 1, 0⟩, ⟨"b", 0, 0⟩] [0, 2]) "b"
          (·.metric) = [0] := by decide
      simp [groupMean, hv]
    simp only [run_bootstrapping, hga, hgb]
    norm_num
  have h2 : run_bootstrapping [⟨"a", 0, 0⟩, ⟨"a", 1, 0⟩, ⟨"b", 0, 0⟩] (·.metric) "a" "b"
      [[1, 2]] = .ok [1] := by
    have hga : groupMean (resample [⟨"a", 0, 0⟩, ⟨"a", 1, 0⟩, ⟨"b", 0, 0⟩] [1, 2])
        (·.metric) "a" = some 1 := by
      have hv : groupVals (resample [⟨"a", 0, 0⟩, ⟨"a", 1, 0⟩, ⟨"b", 0, 0⟩] [1, 2]) "a"
          (·.metric) = [1] := by decide
      simp [groupMean, hv]
    have hgb : groupMean (resample [⟨"a", 0, 0⟩, ⟨"a", 1, 0⟩, ⟨"b", 0, 0⟩] [1, 2])
        (·.metric) "b" = some 0 := by
      have hv : groupVals (resample [⟨"a", 0, 0⟩, ⟨"a", 1, 0⟩, ⟨"b", 0, 0⟩] [1, 2]) "b"
          (·.metric) = [0] := by decide
      simp [groupMean, hv]
    simp only [run_bootstrapping, hga, hgb]
    norm_num
  rw [h1, h2]
  simp

/-- C2 (amended): run_bootstrapping accepts no seed parameter; its resampling
comes from the ambient generator, so the difference distribution is a function
of the dataset, column selections, iteration count and the drawn resamples:
two runs of the same length whose corresponding iterations draw the same
resamples produce bit-identical difference distributions. -/
theorem claim_C2_deterministic_given_draws (df : List Record) (col : Record → Rat)
    (ga gb : String) :
    ∀ (draws1 draws2 : List (List Nat)), draws1.length = draws2.length →
      (∀ i, i < draws1.length →
        resample df (draws1.getD i []) = resample df (draws2.getD i [])) →
      run_bootstrapping df col ga gb draws1 = run_bootstrapping df col ga gb draws2 := by
  intro draws1
  induction draws1 with
  | nil =>
    intro draws2 hlen _
    cases draws2 with
    | nil => rfl
    | cons _ _ => cases hlen
  | cons i1 r1 ih =>
    intro draws2 hlen hres
    cases draws2 with
    | nil => cases hlen
    | cons i2 r2 =>
      have h0 : resample df i1 = resample df i2 := by
        have := hres 0 (Nat.succ_pos _)
        simpa using this
      have hrest : run_bootstrapping df col ga gb r1 = run_bootstrapping df col ga gb r2 := by
        refine ih r2 (Nat.succ_injective hlen) ?_
        intro i hi
        have := hres (i + 1) (Nat.succ_lt_succ hi)
        simpa using this
      show (match groupMean (resample df i1) col ga, groupMean (resample df i1) col gb with
        | some ma, some mb =>
          match run_bootstrapping df col ga gb r1 with
          | .ok ds => Except.ok ((ma - mb) :: ds)
          | .error e => Except.error e
        | _, _ => Except.error "KeyError") = _
      rw [h0, hrest]
      rfl

/-- Witness for C2: the dataset has two identical rows of group a, so the
index draws [0, 2] and [1, 2] are different but induce the same resample, and
the two runs agree. -/
theorem claim_C2_witness :
    run_bootstrapping [⟨"a", 0, 0⟩, ⟨"a", 0, 0⟩, ⟨"b", 1, 0⟩] (·.metric) "a" "b" [[0, 2]] =
    run_bootstrapping [⟨"a", 0, 0⟩, ⟨"a", 0, 0⟩, ⟨"b", 1, 0⟩] (·.metric) "a" "b" [[1, 2]] := by
  refine claim_C2_deterministic_given_draws
    [⟨"a", 0, 0⟩, ⟨"a", 0, 0⟩, ⟨"b", 1, 0⟩] (·.metric) "a" "b" [[0, 2]] [[1, 2]] rfl ?_
  intro i hi
  have hz : i = 0 := Nat.lt_one_iff.mp hi
  subst hz
  decide

/-- C10: the raw rate difference reported alongside the bootstrap result is
computed as mean of the primary metric in group A minus mean in group B, the
same A-minus-B orientation as every bootstrap iteration's difference: each
iteration's value in a successful run is exactly the raw-difference function
applied to that iteration's resample. -/
theorem claim_C10_orientation (df : List Record) (col : Record → Rat) (ga gb : String)
    (draws : List (List Nat)) (ds : List Rat)
    (h : run_bootstrapping df col ga gb draws = .ok ds) :
    (∀ ra rb, groupMean df col ga = some ra → groupMean df col gb = some rb →
      raw_diff df col ga gb = some (ra - rb)) ∧
    ∀ i, i < draws.length →
      raw_diff (resample df (draws.getD i [])) col ga gb = some (ds.getD i 0) := by
  refine ⟨?_, (run_bootstrapping_ok df col ga gb draws ds h).2⟩
  intro ra rb hra hrb
  simp [raw_diff, hra, hrb]

/-- Witness for C10: on the dataset [(a, metric 1), (b, metric 0)] with the
full-dataset resample, the raw difference is 1 - 0 and the single bootstrap
difference equals the raw-difference function at that resample. -/
theorem claim_C10_witness :
    raw_diff [⟨"a", 1, 0⟩, ⟨"b", 0, 0⟩] (·.metric) "a" "b" = some 1 ∧
    raw_diff (resample [⟨"a", 1, 0⟩, ⟨"b", 0, 0⟩] [0, 1]) (·.metric) "a" "b" = some 1 := by
  have hga : groupMean [⟨"a", 1, 0⟩, ⟨"b", 0, 0⟩] (·.metric) "a" = some 1 := by
    have hv : groupVals [⟨"a", 1, 0⟩, ⟨"b", 0, 0⟩] "a" (·.metric) = [1] := by decide
    simp [groupMean, hv]
  have hgb : groupMean [⟨"a", 1, 0⟩, ⟨"b", 0, 0⟩] (·.metric) "b" = some 0 := by
    have hv : groupVals [⟨"a", 1, 0⟩, ⟨"b", 0, 0⟩] "b" (·.metric) = [0] := by decide
    simp [groupMean, hv]
  have hga2 : groupMean (resample [⟨"a", 1, 0⟩, ⟨"b", 0, 0⟩] [0, 1]) (·.metric) "a" =
      some 1 := by
    have hv : groupVals (resample [⟨"a", 1, 0⟩, ⟨"b", 0, 0⟩] [0, 1]) "a" (·.metric) =
        [1] := by decide
    simp [groupMean, hv]
  have hgb2 : groupMean (resample [⟨"a", 1, 0⟩, ⟨"b", 0, 0⟩] [0, 1]) (·.metric) "b" =
      some 0 := by
    have hv : groupVals (resample [⟨"a", 1, 0⟩, ⟨"b", 0, 0⟩] [0, 1]) "b" (·.metric) =
        [0] := by decide
    simp [groupMean, hv]
  have hok : run_bootstrapping [⟨"a", 1, 0⟩, ⟨"b", 0, 0⟩] (·.metric) "a" "b" [[0, 1]] =
      .ok [1] := by
    simp only [run_bootstrapping, hga2, hgb2]
    norm_num
  have h := claim_C10_orientation [⟨"a", 1, 0⟩, ⟨"b", 0, 0⟩] (·.metric) "a" "b"
    [[0, 1]] [1] hok
  constructor
  · have h1 := h.1 1 0 hga hgb
    simpa using h1
  · have h2 := h.2 0 (Nat.succ_pos _)
    simpa using h2

end ABTest
